import Mathlib

/-!
Shallow embedding of the ride / driver / odometer / attendance / leave
endpoints of `backend/main.py` (FastAPI + SQLAlchemy, tables declared in
`backend/database.py`).

Modelling conventions:
* Row ids (uuid4 strings in the source) are `Nat`, drawn from a counter
  `DB.nextId` that plays the role of the uuid generator; `db.add` appends
  the new row at the end of the table list.
* `datetime.utcnow()` is a `Nat` clock value passed to each operation as
  the `now` argument; stored timestamps are `Nat` / `Option Nat`.
* SQLAlchemy `query(...).filter(...).first()` is `List.find?`; mutating
  the returned ORM object is `updateFirst` (rewrite the first matching
  row, leave the rest untouched).
* Odometer readings are `Int` (the columns are `Integer`); `ride.distance`
  is kept as `Int` because every value the endpoints ever write to it is
  integral.  Float-valued columns that no modelled endpoint reads or
  branches on (ratings, coordinates) are omitted; `total_hours`
  (`duration.total_seconds() / 3600`) is modelled exactly as `ℚ`.
* `raise HTTPException(status_code=..., detail=...)` is
  `Except.error ⟨code, detail⟩`; endpoints that cannot raise are total.
-/

namespace RecTransport

/-- Ride status enum of `schemas.RideStatus` / the `rides.status` column. -/
inductive RideStatus where
  | requested
  | assigned
  | accepted
  | picking_up
  | in_progress
  | completed
  | cancelled
deriving DecidableEq, Repr

/-- Status of a `kilometer_entries` row: "started" or "completed". -/
inductive KmStatus where
  | started
  | completed
deriving DecidableEq, Repr

/-- Status of a `driver_attendance` row: "active" or "completed". -/
inductive AttStatus where
  | active
  | completed
deriving DecidableEq, Repr

/-- Leave request status enum of `schemas.LeaveStatus`. -/
inductive LeaveStatus where
  | pending
  | approved
  | rejected
deriving DecidableEq, Repr

/-- Role of the authenticated principal (`users.role`). -/
inductive Role where
  | admin
  | driver
  | passenger
deriving DecidableEq, Repr

/-- A `drivers` row (`database.Driver`), restricted to the columns the
modelled endpoints read or write. -/
structure Driver where
  id : Nat
  user_id : Nat
  is_online : Bool
  current_km_reading : Int
  total_rides : Nat
  last_status_change : Nat
deriving DecidableEq, Repr

/-- A `passengers` row (`database.Passenger`). -/
structure Passenger where
  id : Nat
  user_id : Nat
  total_rides : Nat
deriving DecidableEq, Repr

/-- A `rides` row (`database.Ride`); float coordinates are omitted,
addresses kept as strings. -/
structure Ride where
  id : Nat
  passenger_id : Nat
  driver_id : Option Nat
  status : RideStatus
  pickup_address : String
  dropoff_address : String
  requested_at : Nat
  assigned_at : Option Nat
  accepted_at : Option Nat
  picked_up_at : Option Nat
  completed_at : Option Nat
  cancelled_at : Option Nat
  distance : Int
  estimated_duration : Int
  actual_duration : Option Int
deriving DecidableEq, Repr

/-- A `kilometer_entries` row (`database.KilometerEntry`). -/
structure KilometerEntry where
  id : Nat
  driver_id : Nat
  start_km : Int
  end_km : Option Int
  ride_id : Option Nat
  status : KmStatus
deriving DecidableEq, Repr

/-- A `driver_attendance` row (`database.DriverAttendance`). -/
structure DriverAttendance where
  id : Nat
  driver_id : Nat
  date : Nat
  start_time : Nat
  end_time : Option Nat
  total_hours : Option ℚ
  status : AttStatus
deriving DecidableEq, Repr

/-- A `leave_requests` row (`database.LeaveRequest`). -/
structure LeaveRequest where
  id : Nat
  driver_id : Nat
  start_date : Nat
  end_date : Nat
  reason : String
  status : LeaveStatus
  requested_at : Nat
  reviewed_at : Option Nat
  reviewed_by : Option Nat
  comments : Option String
deriving DecidableEq, Repr

/-- The database state: one list per table, plus the id counter standing
in for the uuid generator. -/
structure DB where
  drivers : List Driver
  passengers : List Passenger
  rides : List Ride
  kmEntries : List KilometerEntry
  attendance : List DriverAttendance
  leaveRequests : List LeaveRequest
  nextId : Nat
deriving DecidableEq, Repr

/-- An HTTP error response (`HTTPException(status_code, detail)`). -/
structure HTTPError where
  status_code : Nat
  detail : String
deriving DecidableEq, Repr

/-- Rewrite the first element satisfying `p` (SQLAlchemy: mutate the object
returned by `.first()`); identity when no element matches. -/
def updateFirst (p : α → Bool) (f : α → α) : List α → List α
  | [] => []
  | x :: xs => if p x then f x :: xs else x :: updateFirst p f xs

/-- `db.query(DBDriver).filter(DBDriver.id == i).first()`. -/
def findDriver (db : DB) (i : Nat) : Option Driver :=
  db.drivers.find? (fun d => decide (d.id = i))

/-- `db.query(DBDriver).filter(DBDriver.user_id == uid).first()`. -/
def findDriverByUser (db : DB) (uid : Nat) : Option Driver :=
  db.drivers.find? (fun d => decide (d.user_id = uid))

/-- `db.query(DBRide).filter(DBRide.id == i).first()`. -/
def findRide (db : DB) (i : Nat) : Option Ride :=
  db.rides.find? (fun r => decide (r.id = i))

/-- `db.query(DBKilometerEntry).filter(DBKilometerEntry.id == i).first()`. -/
def findKmEntry (db : DB) (i : Nat) : Option KilometerEntry :=
  db.kmEntries.find? (fun e => decide (e.id = i))

/-- `db.query(DBLeaveRequest).filter(DBLeaveRequest.id == i).first()`. -/
def findLeave (db : DB) (i : Nat) : Option LeaveRequest :=
  db.leaveRequests.find? (fun l => decide (l.id = i))

/-- Filter of the active-attendance query in `update_my_status_body`:
`DriverAttendance.driver_id == driver.id, DriverAttendance.status == "active"`. -/
def isActiveFor (did : Nat) (a : DriverAttendance) : Bool :=
  decide (a.driver_id = did) && decide (a.status = AttStatus.active)

/-- Filter of the open-entry query in `complete_ride`:
`KilometerEntry.ride_id == ride_id, KilometerEntry.status == "started"`. -/
def isOpenForRide (rid : Nat) (e : KilometerEntry) : Bool :=
  decide (e.ride_id = some rid) && decide (e.status = KmStatus.started)

/-- Number of attendance rows for driver `did` with status active. -/
def countActiveFor (db : DB) (did : Nat) : Nat :=
  db.attendance.countP (isActiveFor did)

/-- Number of kilometer-entry rows for driver `did` with status started. -/
def countStartedFor (db : DB) (did : Nat) : Nat :=
  db.kmEntries.countP
    (fun e => decide (e.driver_id = did) && decide (e.status = KmStatus.started))

/-- Predicate: driver row with primary key `i`. -/
def driverIdP (i : Nat) (d : Driver) : Bool := decide (d.id = i)

/-- Predicate: driver row whose `user_id` is `uid`. -/
def driverUserP (uid : Nat) (d : Driver) : Bool := decide (d.user_id = uid)

/-- Predicate: ride row with primary key `i`. -/
def rideIdP (i : Nat) (r : Ride) : Bool := decide (r.id = i)

/-- Predicate: kilometer-entry row with primary key `i`. -/
def kmIdP (i : Nat) (e : KilometerEntry) : Bool := decide (e.id = i)

/-- Predicate: leave-request row with primary key `i`. -/
def leaveIdP (i : Nat) (l : LeaveRequest) : Bool := decide (l.id = i)

/-- Row update `driver.is_online = b; driver.last_status_change = now`. -/
def setFlag (b : Bool) (now : Nat) (d : Driver) : Driver :=
  { d with is_online := b, last_status_change := now }

/-- Row update `driver.current_km_reading = km`. -/
def setReading (km : Int) (d : Driver) : Driver :=
  { d with current_km_reading := km }

/-- Row update of `complete_ride` on the driver:
`current_km_reading = end_km; total_rides += 1`. -/
def completeDriver (km : Int) (d : Driver) : Driver :=
  { d with current_km_reading := km, total_rides := d.total_rides + 1 }

/-- Row update closing a kilometer entry: `end_km = e; status = "completed"`. -/
def closeKm (e : Int) (k : KilometerEntry) : KilometerEntry :=
  { k with end_km := some e, status := .completed }

/-- Row update closing an attendance session (`update_my_status_body`,
offline branch): `end_time = now; status = "completed";
total_hours = duration.total_seconds() / 3600`. -/
def closeAtt (now : Nat) (a : DriverAttendance) : DriverAttendance :=
  { a with end_time := some now, status := .completed,
           total_hours := some (((now : ℚ) - (a.start_time : ℚ)) / 3600) }

/-- `PUT /drivers/driver_id/status` (`main.update_driver_status`,
main.py lines 397-407): writes the flag directly, no attendance
bookkeeping at all. -/
def update_driver_status (db : DB) (driver_id : Nat) (is_online : Bool)
    (now : Nat) : Except HTTPError DB :=
  match findDriver db driver_id with
  | none => .error ⟨404, "Driver not found"⟩
  | some _ =>
    .ok { db with drivers := updateFirst (driverIdP driver_id) (setFlag is_online now) db.drivers }

/-- `PUT /drivers/me/status` (`main.update_my_status`, main.py lines
409-425): same direct flag write, keyed by the caller's user id. -/
def update_my_status (db : DB) (uid : Nat) (is_online : Bool)
    (now : Nat) : Except HTTPError DB :=
  match findDriverByUser db uid with
  | none => .error ⟨404, "Driver profile not found"⟩
  | some _ =>
    .ok { db with drivers := updateFirst (driverUserP uid) (setFlag is_online now) db.drivers }

/-- `PUT /drivers/me/status-body` (`main.update_my_status_body`, main.py
lines 427-477): flag write plus attendance bookkeeping.  Going online from
offline appends a fresh active session; going offline from online closes
the first active session if one exists (absence tolerated); the flag and
`last_status_change` are always written. -/
def update_my_status_body (db : DB) (uid : Nat) (is_online : Bool)
    (now : Nat) : Except HTTPError DB :=
  match findDriverByUser db uid with
  | none => .error ⟨404, "Driver profile not found"⟩
  | some driver =>
    let newSession : DriverAttendance :=
      { id := db.nextId, driver_id := driver.id, date := now,
        start_time := now, end_time := none, total_hours := none,
        status := .active }
    let db1 :=
      if is_online && !driver.is_online then
        { db with attendance := db.attendance ++ [newSession], nextId := db.nextId + 1 }
      else if !is_online && driver.is_online then
        { db with attendance := updateFirst (isActiveFor driver.id) (closeAtt now) db.attendance }
      else db
    .ok { db1 with drivers := updateFirst (driverUserP uid) (setFlag is_online now) db1.drivers }

/-- `POST /km-entries` (`main.create_km_entry`, main.py lines 480-498):
unconditionally inserts a new started entry (no check for an existing
open entry) and, when the driver exists, overwrites
`current_km_reading` with `start_km`. -/
def create_km_entry (db : DB) (driver_id : Nat) (start_km : Int)
    (ride_id : Option Nat) : DB :=
  let newEntry : KilometerEntry :=
    { id := db.nextId, driver_id := driver_id, start_km := start_km,
      end_km := none, ride_id := ride_id, status := .started }
  let db1 := { db with kmEntries := db.kmEntries ++ [newEntry], nextId := db.nextId + 1 }
  { db1 with drivers := updateFirst (driverIdP driver_id) (setReading start_km) db1.drivers }

/-- `PUT /km-entries/entry_id/complete` (`main.complete_km_entry`,
main.py lines 500-515): 404 when the entry is missing; otherwise sets
`end_km` and status completed with no comparison against `start_km`, and
overwrites the driver's `current_km_reading` with `end_km`. -/
def complete_km_entry (db : DB) (entry_id : Nat) (end_km : Int) :
    Except HTTPError DB :=
  match findKmEntry db entry_id with
  | none => .error ⟨404, "Kilometer entry not found"⟩
  | some entry =>
    let db1 := { db with kmEntries := updateFirst (kmIdP entry_id) (closeKm end_km) db.kmEntries }
    .ok { db1 with drivers := updateFirst (driverIdP entry.driver_id) (setReading end_km) db1.drivers }

/-- `POST /rides` (`main.create_ride`, main.py lines 730-748): inserts a
new ride in status requested with no driver and returns its id; the
endpoint has no failure path. -/
def create_ride (db : DB) (passenger_id : Nat) (pickup dropoff : String)
    (now : Nat) : DB × Nat :=
  let newRide : Ride :=
    { id := db.nextId, passenger_id := passenger_id, driver_id := none,
      status := .requested, pickup_address := pickup, dropoff_address := dropoff,
      requested_at := now, assigned_at := none, accepted_at := none,
      picked_up_at := none, completed_at := none, cancelled_at := none,
      distance := 0, estimated_duration := 0, actual_duration := none }
  ({ db with rides := db.rides ++ [newRide], nextId := db.nextId + 1 }, db.nextId)

/-- Row update of `update_ride_status`: write the requested status and
stamp the matching timestamp (main.py lines 756-768). -/
def writeStatus (s : RideStatus) (now : Nat) (r : Ride) : Ride :=
  let r1 := { r with status := s }
  match s with
  | .accepted => { r1 with accepted_at := some now }
  | .picking_up => { r1 with picked_up_at := some now }
  | .in_progress => { r1 with picked_up_at := some now }
  | .completed => { r1 with completed_at := some now }
  | .cancelled => { r1 with cancelled_at := some now }
  | _ => r1

/-- `PUT /rides/ride_id/status` (`main.update_ride_status`, main.py lines
750-771): 404 when the ride is missing; otherwise writes whatever status
was supplied, with no transition check of any kind. -/
def update_ride_status (db : DB) (ride_id : Nat) (s : RideStatus)
    (now : Nat) : Except HTTPError DB :=
  match findRide db ride_id with
  | none => .error ⟨404, "Ride not found"⟩
  | some _ =>
    .ok { db with rides := updateFirst (rideIdP ride_id) (writeStatus s now) db.rides }

/-- Row update of `assign_ride_to_driver` on the ride. -/
def assignRide (driver_id now : Nat) (r : Ride) : Ride :=
  { r with driver_id := some driver_id, status := .assigned, assigned_at := some now }

/-- `POST /rides/ride_id/assign` (`main.assign_ride_to_driver`, main.py
lines 774-803): requires the ride to exist and be in status requested and
the driver to exist and be online; then sets `driver_id`, status assigned
and `assigned_at`. -/
def assign_ride_to_driver (db : DB) (ride_id driver_id : Nat)
    (now : Nat) : Except HTTPError DB :=
  match findRide db ride_id with
  | none => .error ⟨404, "Ride not found"⟩
  | some ride =>
    if ride.status ≠ RideStatus.requested then
      .error ⟨400, "Ride is not in requested status"⟩
    else
      match findDriver db driver_id with
      | none => .error ⟨404, "Driver not found"⟩
      | some driver =>
        if !driver.is_online then .error ⟨400, "Driver is not online"⟩
        else .ok { db with rides := updateFirst (rideIdP ride_id) (assignRide driver_id now) db.rides }

/-- Row update of `start_ride` on the ride. -/
def startRideRow (now : Nat) (r : Ride) : Ride :=
  { r with status := .in_progress, picked_up_at := some now }

/-- `POST /rides/ride_id/start` (`main.start_ride`, main.py lines
805-848): the caller's driver profile must exist, the ride must exist, be
assigned to that driver and be in status assigned; then the ride moves to
in_progress, a started kilometer entry is inserted (with no check for an
already-open entry for this driver) and the driver's
`current_km_reading` is overwritten with `start_km`. -/
def start_ride (db : DB) (ride_id uid : Nat) (start_km : Int)
    (now : Nat) : Except HTTPError DB :=
  match findDriverByUser db uid with
  | none => .error ⟨404, "Driver profile not found"⟩
  | some driver =>
    match findRide db ride_id with
    | none => .error ⟨404, "Ride not found"⟩
    | some ride =>
      if ride.driver_id ≠ some driver.id then
        .error ⟨403, "You are not assigned to this ride"⟩
      else if ride.status ≠ RideStatus.assigned then
        .error ⟨400, "Ride is not in assigned status"⟩
      else
        let db1 := { db with rides := updateFirst (rideIdP ride_id) (startRideRow now) db.rides }
        let newEntry : KilometerEntry :=
          { id := db1.nextId, driver_id := driver.id, start_km := start_km,
            end_km := none, ride_id := some ride_id, status := .started }
        let db2 := { db1 with kmEntries := db1.kmEntries ++ [newEntry], nextId := db1.nextId + 1 }
        .ok { db2 with drivers := updateFirst (driverUserP uid) (setReading start_km) db2.drivers }

/-- Row update of `complete_ride` on the ride.  The source computes
`distance = ride_complete.end_km - ride.start_km if hasattr(ride, 'start_km') else 0`;
the `Ride` model has no `start_km` column, so `hasattr` is always false
and the distance written is always 0. -/
def completeRideRow (dur : Option Int) (now : Nat) (r : Ride) : Ride :=
  { r with status := .completed, completed_at := some now,
           actual_duration := dur, distance := 0 }

/-- `POST /rides/ride_id/complete` (`main.complete_ride`, main.py lines
850-899): the caller's driver profile must exist, the ride must exist, be
assigned to that driver and be in_progress; then the ride is completed
(with distance 0, see `completeRideRow`), the first started kilometer
entry carrying this ride id — if any — gets `end_km` and status completed
with no comparison against its `start_km`, and the driver's reading and
ride count are updated. -/
def complete_ride (db : DB) (ride_id uid : Nat) (end_km : Int)
    (actual_duration : Option Int) (now : Nat) : Except HTTPError DB :=
  match findDriverByUser db uid with
  | none => .error ⟨404, "Driver profile not found"⟩
  | some driver =>
    match findRide db ride_id with
    | none => .error ⟨404, "Ride not found"⟩
    | some ride =>
      if ride.driver_id ≠ some driver.id then
        .error ⟨403, "You are not assigned to this ride"⟩
      else if ride.status ≠ RideStatus.in_progress then
        .error ⟨400, "Ride is not in progress"⟩
      else
        let db1 := { db with rides := updateFirst (rideIdP ride_id) (completeRideRow actual_duration now) db.rides }
        let db2 := { db1 with kmEntries := updateFirst (isOpenForRide ride_id) (closeKm end_km) db1.kmEntries }
        .ok { db2 with drivers := updateFirst (driverUserP uid) (completeDriver end_km) db2.drivers }

/-- `POST /leave-requests` (`main.create_leave_request`, main.py lines
549-575): an admin must supply a driver id, a driver files for themself;
the target is looked up among driver profiles by `user_id` and the new
request is inserted with status pending and empty review fields. -/
def create_leave_request (db : DB) (role : Role) (uid : Nat)
    (req_driver_id : Option Nat) (start_date end_date : Nat)
    (reason : String) (now : Nat) : Except HTTPError DB :=
  let target : Except HTTPError Nat :=
    if role = Role.admin then
      match req_driver_id with
      | none => .error ⟨400, "driver_id is required for admin requests"⟩
      | some d => .ok d
    else .ok uid
  match target with
  | .error e => .error e
  | .ok duid =>
    match findDriverByUser db duid with
    | none => .error ⟨404, "Driver not found"⟩
    | some driver =>
      let newReq : LeaveRequest :=
        { id := db.nextId, driver_id := driver.id, start_date := start_date,
          end_date := end_date, reason := reason, status := .pending,
          requested_at := now, reviewed_at := none, reviewed_by := none,
          comments := none }
      .ok { db with leaveRequests := db.leaveRequests ++ [newReq], nextId := db.nextId + 1 }

/-- Row update of `review_leave_request`. -/
def reviewRow (s : LeaveStatus) (comments : Option String)
    (reviewer now : Nat) (l : LeaveRequest) : LeaveRequest :=
  { l with status := s, reviewed_at := some now, reviewed_by := some reviewer,
           comments := comments }

/-- `PUT /leave-requests/request_id/review` (`main.review_leave_request`,
main.py lines 577-594): 404 when the request is missing; otherwise the
review fields are overwritten unconditionally — the current status is
never consulted. -/
def review_leave_request (db : DB) (request_id : Nat) (s : LeaveStatus)
    (comments : Option String) (reviewer : Nat) (now : Nat) :
    Except HTTPError DB :=
  match findLeave db request_id with
  | none => .error ⟨404, "Leave request not found"⟩
  | some _ =>
    .ok { db with leaveRequests := updateFirst (leaveIdP request_id) (reviewRow s comments reviewer now) db.leaveRequests }

/-- The seed driver profile created by `startup_event` (main.py lines
72-86): `is_online` takes the column default False, the odometer reading
is 45230 and 1250 rides are on record.  Under the id-counter model of
`uuid4()` the six seeded rows get ids 0..5, so the driver profile has id 3
and belongs to user 2. -/
def seedDriver : Driver :=
  { id := 3, user_id := 2, is_online := false, current_km_reading := 45230,
    total_rides := 1250, last_status_change := 0 }

/-- The seed passenger profile created by `startup_event` (main.py lines
99-105): id 5, user 4. -/
def seedPassenger : Passenger :=
  { id := 5, user_id := 4, total_rides := 89 }

/-- The database right after `startup_event` seeding: one driver, one
passenger, every other table empty, id counter at 6. -/
def initDB : DB :=
  { drivers := [seedDriver], passengers := [seedPassenger], rides := [],
    kmEntries := [], attendance := [], leaveRequests := [], nextId := 6 }

/-- Modelled from the spec: the ride-status transition table of spec
section 4.1 — `requested → assigned → in_progress → completed`, with
`cancelled` reachable from requested, assigned or in_progress, and
`completed`/`cancelled` terminal.  This definition follows the
specification's words, for comparison with `update_ride_status`. -/
def specAllowedTransition : RideStatus → RideStatus → Bool
  | .requested, .assigned => true
  | .assigned, .in_progress => true
  | .in_progress, .completed => true
  | .requested, .cancelled => true
  | .assigned, .cancelled => true
  | .in_progress, .cancelled => true
  | _, _ => false

/-- A successful `find?` means the predicate holds of the found row after
an `updateFirst` with a row update preserving the predicate. -/
theorem find?_updateFirst (p : α → Bool) (f : α → α) (l : List α) (a : α)
    (h : l.find? p = some a) (hf : p (f a) = true) :
    (updateFirst p f l).find? p = some (f a) := by
  induction l with
  | nil => simp at h
  | cons x xs ih =>
    by_cases hx : p x = true
    · have hxa : x = a := by
        rw [List.find?_cons_of_pos _ hx] at h
        exact Option.some.inj h
      subst hxa
      simp [updateFirst, hx, List.find?_cons_of_pos _ hf]
    · have hx' : ¬ p x := by simpa using hx
      rw [List.find?_cons_of_neg _ hx'] at h
      simp only [updateFirst, if_neg hx']
      rw [List.find?_cons_of_neg _ hx']
      exact ih h

/-- `updateFirst` is the identity when no row matches. -/
theorem updateFirst_of_find?_none (p : α → Bool) (f : α → α) (l : List α)
    (h : l.find? p = none) : updateFirst p f l = l := by
  induction l with
  | nil => rfl
  | cons x xs ih =>
    by_cases hx : p x = true
    · rw [List.find?_cons_of_pos _ hx] at h
      exact absurd h (by simp)
    · have hx' : ¬ p x := by simpa using hx
      rw [List.find?_cons_of_neg _ hx'] at h
      simp only [updateFirst, if_neg hx']
      rw [ih h]

/-- State reached by creating a ride, force-setting it to completed, then
force-setting it back to requested through `update_ride_status`. -/
def c1_state : Except HTTPError DB :=
  let p := create_ride initDB 5 "A" "B" 1
  (update_ride_status p.1 p.2 RideStatus.completed 2).bind
    (fun db2 => update_ride_status db2 p.2 RideStatus.requested 3)

/-- C1: the claim says every status change funnels through the transition
table and `SetStatus` rejects transitions outside it.  The code's
`update_ride_status` is an unchecked write: on a completed ride (a
terminal state) it happily sets the status back to requested, a
transition the spec's table forbids. -/
theorem c1_setStatus_unchecked_write :
    c1_state.map (fun db => (findRide db 6).map Ride.status)
      = Except.ok (some RideStatus.requested)
    ∧ specAllowedTransition RideStatus.completed RideStatus.requested = false :=
  ⟨rfl, rfl⟩

/-- Round trip of the spec's §8 scenario: driver online, ride created,
assigned, started at km 100, completed at km 150. -/
def c2_run : Except HTTPError DB := do
  let db1 ← update_driver_status initDB 3 true 1
  let p := create_ride db1 5 "A" "B" 2
  let db3 ← assign_ride_to_driver p.1 p.2 3 3
  let db4 ← start_ride db3 p.2 2 100 4
  complete_ride db4 p.2 2 150 (some 30) 5

/-- C2: the claim says the round trip yields `ride.distance == 50`.  The
code stores distance 0 (the `hasattr(ride, 'start_km')` guard in
`complete_ride` is always false because `Ride` has no such column), even
though the driver reading and the kilometer entry come out as claimed. -/
theorem c2_roundtrip_distance_is_zero :
    c2_run.map (fun db => ((findRide db 6).map Ride.distance,
        (findDriverByUser db 2).map Driver.current_km_reading,
        (findKmEntry db 7).map (fun e => (e.start_km, e.end_km, e.status))))
      = Except.ok (some 0, some 150, some (100, some 150, KmStatus.completed)) :=
  rfl

/-- Same setup as `c2_run` but completing with end odometer 90 < start 100. -/
def c3_run : Except HTTPError DB := do
  let db1 ← update_driver_status initDB 3 true 1
  let p := create_ride db1 5 "A" "B" 2
  let db3 ← assign_ride_to_driver p.1 p.2 3 3
  let db4 ← start_ride db3 p.2 2 100 4
  complete_ride db4 p.2 2 90 (some 30) 5

/-- Standalone ledger variant: open an entry at km 100, close it at 90. -/
def c3_run2 : Except HTTPError DB :=
  complete_km_entry (create_km_entry initDB 3 100 none) 6 90

/-- C3: the claim says Complete (and CloseEntry) fail with
InvalidOdometerReading when endKm < start_km and leave state unchanged.
The code has no such check anywhere: both calls succeed, the entry is
closed with `end_km = 90 < start_km = 100` and the driver's reading is
dragged down to 90. -/
theorem c3_end_below_start_accepted :
    c3_run.map (fun db => ((findKmEntry db 7).map (fun e => (e.start_km, e.end_km, e.status)),
        (findDriverByUser db 2).map Driver.current_km_reading,
        (findRide db 6).map Ride.status))
      = Except.ok (some (100, some 90, KmStatus.completed), some 90, some RideStatus.completed)
    ∧ c3_run2.map (fun db => (findKmEntry db 6).map (fun e => (e.start_km, e.end_km, e.status)))
      = Except.ok (some (100, some 90, KmStatus.completed))
    ∧ (90 : Int) < 100 :=
  ⟨rfl, rfl, by decide⟩

/-- Open two standalone odometer entries for the seed driver in a row. -/
def c4a : DB := create_km_entry (create_km_entry initDB 3 100 none) 3 200 none

/-- Open a standalone entry, then start an assigned ride for the same
driver. -/
def c4b : Except HTTPError DB := do
  let db1 ← update_driver_status initDB 3 true 1
  let p := create_ride db1 5 "A" "B" 2
  let db3 ← assign_ride_to_driver p.1 p.2 3 3
  let db4 := create_km_entry db3 3 100 none
  start_ride db4 p.2 2 110 4

/-- C4: the claim says opening an entry (or starting a ride) for a driver
who already has a started KilometerEntry fails with
ConflictingOdometerEntry and creates nothing.  Neither `create_km_entry`
nor `start_ride` performs any such check: both sequences succeed and
leave the driver with two started entries. -/
theorem c4_conflicting_open_entries_accepted :
    countStartedFor c4a 3 = 2
    ∧ c4b.map (fun db => countStartedFor db 3) = Except.ok 2 :=
  ⟨rfl, rfl⟩

/-- Go online through the attendance-tracking endpoint, flip the flag off
through the bookkeeping-free admin endpoint, then go online again. -/
def c5_run : Except HTTPError DB := do
  let db1 ← update_my_status_body initDB 2 true 1
  let db2 ← update_driver_status db1 3 false 2
  update_my_status_body db2 2 true 3

/-- Two standalone open entries for the seed driver (kilometer half of
the C5 invariant). -/
def c5_km : DB := create_km_entry (create_km_entry initDB 3 100 none) 3 150 none

/-- C5: the claim says every reachable state has at most one active
AttendanceSession and at most one started KilometerEntry per driver.
Both halves fail on reachable states: the endpoint sequence of `c5_run`
leaves driver 3 with two active sessions, and two `create_km_entry`
calls leave two started entries. -/
theorem c5_invariant_violated_in_reachable_state :
    c5_run.map (fun db => countActiveFor db 3) = Except.ok 2
    ∧ countStartedFor c5_km 3 = 2 :=
  ⟨rfl, rfl⟩

/-- C6: the claim says the online flag always agrees with the existence
of an active attendance session.  `update_driver_status` flips the flag
with no attendance bookkeeping: one call from the seeded state leaves the
driver online with zero active sessions. -/
theorem c6_flag_session_agreement_broken :
    (update_driver_status initDB 3 true 1).map
        (fun db => ((findDriver db 3).map Driver.is_online, countActiveFor db 3))
      = Except.ok (some true, 0) :=
  rfl

/-- File a leave request as the seed driver, approve it, then review it a
second time with decision rejected. -/
def c8_run : Except HTTPError DB := do
  let db1 ← create_leave_request initDB Role.driver 2 none 10 20 "v" 1
  let db2 ← review_leave_request db1 6 LeaveStatus.approved none 99 2
  review_leave_request db2 6 LeaveStatus.rejected none 99 3

/-- C8: the claim says Review requires status pending and a second Review
fails with InvalidTransition, changing nothing.  `review_leave_request`
never reads the current status: the second review also succeeds and
overwrites the decision and the review metadata. -/
theorem c8_second_review_overwrites :
    c8_run.map (fun db => (findLeave db 6).map (fun l => (l.status, l.reviewed_at, l.reviewed_by)))
      = Except.ok (some (LeaveStatus.rejected, some 3, some 99)) :=
  rfl

/-- C7: Assign succeeds exactly when the ride is in status requested and
the driver is online; the failure responses are the not-requested and
not-online errors, and on success the ride gets the driver id, status
assigned and the `assigned_at` stamp while every other table is left
untouched. -/
theorem c7_assign_guarded (db : DB) (rid did now : Nat) (r : Ride) (d : Driver)
    (hr : findRide db rid = some r) (hd : findDriver db did = some d) :
    (r.status ≠ RideStatus.requested →
      assign_ride_to_driver db rid did now = .error ⟨400, "Ride is not in requested status"⟩)
    ∧ (r.status = RideStatus.requested → d.is_online = false →
      assign_ride_to_driver db rid did now = .error ⟨400, "Driver is not online"⟩)
    ∧ (r.status = RideStatus.requested → d.is_online = true →
      ∃ db2, assign_ride_to_driver db rid did now = .ok db2
        ∧ findRide db2 rid = some { r with driver_id := some did, status := RideStatus.assigned, assigned_at := some now }
        ∧ db2.drivers = db.drivers ∧ db2.kmEntries = db.kmEntries
        ∧ db2.attendance = db.attendance ∧ db2.leaveRequests = db.leaveRequests)
    ∧ (∀ db2, assign_ride_to_driver db rid did now = .ok db2 →
      r.status = RideStatus.requested ∧ d.is_online = true) := by
  have hr' : db.rides.find? (rideIdP rid) = some r := hr
  have hid : r.id = rid := by simpa [rideIdP] using List.find?_some hr'
  refine ⟨?_, ?_, ?_, ?_⟩
  · intro hs
    unfold assign_ride_to_driver
    rw [hr]
    simp [hs]
  · intro hs ho
    unfold assign_ride_to_driver
    rw [hr]
    simp [hs, hd, ho]
  · intro hs ho
    refine ⟨{ db with rides := updateFirst (rideIdP rid) (assignRide did now) db.rides }, ?_, ?_, rfl, rfl, rfl, rfl⟩
    · unfold assign_ride_to_driver
      rw [hr]
      simp [hs, hd, ho]
    · show (updateFirst (rideIdP rid) (assignRide did now) db.rides).find? (rideIdP rid) = _
      have hf : rideIdP rid (assignRide did now r) = true := by
        simp [rideIdP, assignRide, hid]
      have := find?_updateFirst (rideIdP rid) (assignRide did now) db.rides r hr' hf
      simpa [assignRide] using this
  · intro db2 hok
    unfold assign_ride_to_driver at hok
    rw [hr, hd] at hok
    by_cases hs : r.status = RideStatus.requested
    · cases ho : d.is_online with
      | false => simp [hs, ho] at hok
      | true => exact ⟨hs, rfl⟩
    · simp [hs] at hok

/-- One requested ride (id 6) over the seeded state; the seed driver is
still offline. -/
def c7db : DB := (create_ride initDB 5 "A" "B" 1).1

/-- The ride row created in `c7db`. -/
def c7ride : Ride :=
  { id := 6, passenger_id := 5, driver_id := none, status := .requested,
    pickup_address := "A", dropoff_address := "B", requested_at := 1,
    assigned_at := none, accepted_at := none, picked_up_at := none,
    completed_at := none, cancelled_at := none, distance := 0,
    estimated_duration := 0, actual_duration := none }

/-- `c7db` after the seed driver is brought online. -/
def c7dbOn : DB := ((update_driver_status c7db 3 true 2).toOption).getD c7db

/-- Witness for C7: with the driver offline Assign fails with the
not-online error; with the driver online it succeeds and rewrites exactly
the ride row. -/
theorem c7_assign_guarded_witness :
    assign_ride_to_driver c7db 6 3 9 = .error ⟨400, "Driver is not online"⟩
    ∧ (∃ db2, assign_ride_to_driver c7dbOn 6 3 9 = .ok db2
        ∧ findRide db2 6 = some { c7ride with driver_id := some 3, status := RideStatus.assigned, assigned_at := some 9 }
        ∧ db2.drivers = c7dbOn.drivers ∧ db2.kmEntries = c7dbOn.kmEntries
        ∧ db2.attendance = c7dbOn.attendance ∧ db2.leaveRequests = c7dbOn.leaveRequests) :=
  ⟨(c7_assign_guarded c7db 6 3 9 c7ride seedDriver rfl rfl).2.1 rfl rfl,
   (c7_assign_guarded c7dbOn 6 3 9 c7ride (setFlag true 2 seedDriver) rfl rfl).2.2.1 rfl rfl⟩

/-- C9: SetOnline (the attendance-tracking endpoint
`update_my_status_body`) is idempotent on attendance bookkeeping: writing
the flag value the driver already has opens and closes no session and
touches no other table, and from an offline driver with no active
session, two SetOnline(true) calls in a row leave exactly one active
session for that driver. -/
theorem c9_setOnline_idempotent (db : DB) (uid : Nat) (d : Driver) (b : Bool)
    (n1 n2 : Nat) (hd : findDriverByUser db uid = some d) :
    (d.is_online = b →
      ∃ db1, update_my_status_body db uid b n1 = .ok db1
        ∧ db1.attendance = db.attendance
        ∧ db1.kmEntries = db.kmEntries ∧ db1.rides = db.rides)
    ∧ (d.is_online = false → countActiveFor db d.id = 0 →
      ∃ db1 db2, update_my_status_body db uid true n1 = .ok db1
        ∧ update_my_status_body db1 uid true n2 = .ok db2
        ∧ countActiveFor db2 d.id = 1) := by
  have hd' : db.drivers.find? (driverUserP uid) = some d := hd
  have huid : d.user_id = uid := by simpa [driverUserP] using List.find?_some hd'
  constructor
  · intro hb
    refine ⟨{ db with drivers := updateFirst (driverUserP uid) (setFlag b n1) db.drivers }, ?_, rfl, rfl, rfl⟩
    unfold update_my_status_body
    rw [hd]
    cases b with
    | false => simp [hb]
    | true => simp [hb]
  · intro hoff hcnt
    have hf2 : driverUserP uid (setFlag true n1 d) = true := by
      simp [driverUserP, setFlag, huid]
    have h1 : update_my_status_body db uid true n1 = .ok
        { db with attendance := db.attendance ++ [⟨db.nextId, d.id, n1, n1, none, none, AttStatus.active⟩],
                  nextId := db.nextId + 1,
                  drivers := updateFirst (driverUserP uid) (setFlag true n1) db.drivers } := by
      unfold update_my_status_body
      rw [hd]
      simp [hoff, setFlag]
    have hfind1 : findDriverByUser
        { db with attendance := db.attendance ++ [⟨db.nextId, d.id, n1, n1, none, none, AttStatus.active⟩],
                  nextId := db.nextId + 1,
                  drivers := updateFirst (driverUserP uid) (setFlag true n1) db.drivers } uid
        = some (setFlag true n1 d) := by
      show (updateFirst (driverUserP uid) (setFlag true n1) db.drivers).find? (driverUserP uid) = _
      exact find?_updateFirst _ _ _ _ hd' hf2
    have h2 : update_my_status_body
        { db with attendance := db.attendance ++ [⟨db.nextId, d.id, n1, n1, none, none, AttStatus.active⟩],
                  nextId := db.nextId + 1,
                  drivers := updateFirst (driverUserP uid) (setFlag true n1) db.drivers } uid true n2 = .ok
        { db with attendance := db.attendance ++ [⟨db.nextId, d.id, n1, n1, none, none, AttStatus.active⟩],
                  nextId := db.nextId + 1,
                  drivers := updateFirst (driverUserP uid) (setFlag true n2)
                    (updateFirst (driverUserP uid) (setFlag true n1) db.drivers) } := by
      unfold update_my_status_body
      rw [hfind1]
      simp [setFlag]
    refine ⟨_, _, h1, h2, ?_⟩
    show List.countP (isActiveFor d.id)
      (db.attendance ++ [⟨db.nextId, d.id, n1, n1, none, none, AttStatus.active⟩]) = 1
    rw [List.countP_append]
    have hc : List.countP (isActiveFor d.id) db.attendance = 0 := hcnt
    simp [hc, isActiveFor]

/-- Witness for C9 at the seeded state: writing `false` over the already
offline seed driver touches no attendance row, and two SetOnline(true)
calls leave exactly one active session. -/
theorem c9_setOnline_idempotent_witness :
    (∃ db1, update_my_status_body initDB 2 false 1 = .ok db1
      ∧ db1.attendance = initDB.attendance
      ∧ db1.kmEntries = initDB.kmEntries ∧ db1.rides = initDB.rides)
    ∧ (∃ db1 db2, update_my_status_body initDB 2 true 1 = .ok db1
      ∧ update_my_status_body db1 2 true 2 = .ok db2
      ∧ countActiveFor db2 3 = 1) :=
  ⟨(c9_setOnline_idempotent initDB 2 seedDriver false 1 2 rfl).1 rfl,
   (c9_setOnline_idempotent initDB 2 seedDriver false 1 2 rfl).2 rfl rfl⟩

/-- C10: completing an in-progress ride whose driver matches the caller
succeeds even when no started kilometer entry carries the ride's id: the
kilometer table is untouched, the ride is completed (distance 0) and the
driver's reading and ride count are still updated. -/
theorem c10_complete_without_open_entry (db : DB) (rid uid : Nat) (endKm : Int)
    (dur : Option Int) (now : Nat) (d : Driver) (r : Ride)
    (hd : findDriverByUser db uid = some d)
    (hr : findRide db rid = some r)
    (hass : r.driver_id = some d.id)
    (hst : r.status = RideStatus.in_progress)
    (hopen : db.kmEntries.find? (isOpenForRide rid) = none) :
    ∃ db2, complete_ride db rid uid endKm dur now = .ok db2
      ∧ db2.kmEntries = db.kmEntries
      ∧ findRide db2 rid = some { r with status := RideStatus.completed, completed_at := some now, actual_duration := dur, distance := 0 }
      ∧ findDriverByUser db2 uid = some { d with current_km_reading := endKm, total_rides := d.total_rides + 1 } := by
  have hr' : db.rides.find? (rideIdP rid) = some r := hr
  have hid : r.id = rid := by simpa [rideIdP] using List.find?_some hr'
  have hd' : db.drivers.find? (driverUserP uid) = some d := hd
  have huid : d.user_id = uid := by simpa [driverUserP] using List.find?_some hd'
  have hkm : updateFirst (isOpenForRide rid) (closeKm endKm) db.kmEntries = db.kmEntries :=
    updateFirst_of_find?_none _ _ _ hopen
  have hres : complete_ride db rid uid endKm dur now = .ok
      { db with rides := updateFirst (rideIdP rid) (completeRideRow dur now) db.rides,
                drivers := updateFirst (driverUserP uid) (completeDriver endKm) db.drivers } := by
    unfold complete_ride
    rw [hd, hr]
    simp [hass, hst, hkm]
  refine ⟨_, hres, rfl, ?_, ?_⟩
  · show (updateFirst (rideIdP rid) (completeRideRow dur now) db.rides).find? (rideIdP rid) = _
    have hf : rideIdP rid (completeRideRow dur now r) = true := by
      simp [rideIdP, completeRideRow, hid]
    have := find?_updateFirst (rideIdP rid) (completeRideRow dur now) db.rides r hr' hf
    simpa [completeRideRow] using this
  · show (updateFirst (driverUserP uid) (completeDriver endKm) db.drivers).find? (driverUserP uid) = _
    have hf : driverUserP uid (completeDriver endKm d) = true := by
      simp [driverUserP, completeDriver, huid]
    have := find?_updateFirst (driverUserP uid) (completeDriver endKm) db.drivers d hd' hf
    simpa [completeDriver] using this

/-- A reachable state with ride 6 in_progress for the online seed driver
and an empty kilometer table: the ride was moved to in_progress through
the unchecked `update_ride_status` endpoint instead of `start_ride`, so
no entry was ever opened. -/
def c10db : DB :=
  (((update_driver_status initDB 3 true 1).bind (fun db1 =>
      let p := create_ride db1 5 "A" "B" 2
      (assign_ride_to_driver p.1 p.2 3 3).bind (fun db3 =>
        update_ride_status db3 p.2 RideStatus.in_progress 4))).toOption).getD initDB

/-- The ride row of `c10db`. -/
def c10ride : Ride :=
  { id := 6, passenger_id := 5, driver_id := some 3, status := .in_progress,
    pickup_address := "A", dropoff_address := "B", requested_at := 2,
    assigned_at := some 3, accepted_at := none, picked_up_at := some 4,
    completed_at := none, cancelled_at := none, distance := 0,
    estimated_duration := 0, actual_duration := none }

/-- Witness for C10: completing ride 6 of `c10db` at km 150 succeeds,
leaves the kilometer table empty and updates ride and driver. -/
theorem c10_complete_without_open_entry_witness :
    ∃ db2, complete_ride c10db 6 2 150 (some 30) 5 = .ok db2
      ∧ db2.kmEntries = c10db.kmEntries
      ∧ findRide db2 6 = some { c10ride with status := RideStatus.completed, completed_at := some 5, actual_duration := some 30, distance := 0 }
      ∧ findDriverByUser db2 2 = some { setFlag true 1 seedDriver with current_km_reading := 150, total_rides := 1251 } :=
  c10_complete_without_open_entry c10db 6 2 150 (some 30) 5
    (setFlag true 1 seedDriver) c10ride rfl rfl rfl rfl rfl

end RecTransport
